import Mathlib

/-!
Verification of the LightForceSimulator calculation engine from
src/pythonlightforcetravel.py.

The engine is embedded shallowly over the rationals: every numeric literal of
the source (the speed of light, the atmospheric density, the defaults, the
clamp bounds) is an exact rational, so all definitions are executable and all
concrete facts are decidable.  The simulator state is the record of the three
mutable parameters; the two calculator methods read the state and return
values without mutating it, which the embedding renders as pure functions
(and, for the frame properties, as call wrappers returning the value paired
with the unchanged state).
-/

namespace LightForce

/-- The mutable state of the simulator: the three parameters set in
the constructor and overwritten by set_parameters. -/
structure LightForceSimulator where
  total_intensity_w : ℚ
  container_volume_m3 : ℚ
  reflectivity_alpha : ℚ
deriving DecidableEq

/-- Speed of Light (m/s): 2.99792458e8. -/
def C : ℚ := 299792458

/-- Standard Atmospheric Density at sea level (kg/m^3): 1.225. -/
def RHO_ATM : ℚ := 1.225

/-- Environmental Constant (K): 1.0. -/
def K_ENV : ℚ := 1

/-- Pressure Build-up Exponent (beta): 2.0. -/
def BETA : ℚ := 2

/-- Effective Area for Force calculation (m^2): 1.0 (unused by the formulas). -/
def A_EFF : ℚ := 1

/-- The constructor: default simulation parameters. -/
def init : LightForceSimulator := ⟨50000, 10, 0.95⟩

/-- set_parameters: stores the three inputs after clamping, overwriting all
three fields of the state. -/
def set_parameters (_s : LightForceSimulator) (intensity volume alpha : ℚ) :
    LightForceSimulator :=
  ⟨max 0 intensity, max 0.1 volume, min 1 (max 0 alpha)⟩

/-- calculate_relativistic_mass_density: rho_rel = power / (volume * C^2). -/
def calculate_relativistic_mass_density (s : LightForceSimulator) : ℚ :=
  s.total_intensity_w / (s.container_volume_m3 * C ^ 2)

/-- The power operator of the source applied with the exponent BETA.  BETA is
the exact integer 2.0, so the power is the integer power with exponent the
numerator of the rational exponent. -/
def qpow (x e : ℚ) : ℚ := x ^ e.num

/-- The guarded density ratio of calculate_light_force_thrust: if RHO_ATM is
zero the ratio defaults to 1.0, otherwise it is rho_rel / RHO_ATM. -/
def guarded_density_quot (s : LightForceSimulator) : ℚ :=
  if RHO_ATM = 0 then 1 else calculate_relativistic_mass_density s / RHO_ATM

/-- calculate_light_force_thrust: returns the triple
(f_thrust, force_rad_base, rho_rel) of the source. -/
def calculate_light_force_thrust (s : LightForceSimulator) : ℚ × ℚ × ℚ :=
  let force_rad_base := (1 + s.reflectivity_alpha) * s.total_intensity_w / C
  let rho_rel := calculate_relativistic_mass_density s
  let density_amplification := K_ENV * qpow (guarded_density_quot s) BETA
  let f_thrust := force_rad_base * density_amplification
  (f_thrust, force_rad_base, rho_rel)

/-- The clamp invariant on a stored parameter state. -/
def ParamsValid (s : LightForceSimulator) : Prop :=
  0 ≤ s.total_intensity_w ∧ 0.1 ≤ s.container_volume_m3 ∧
    0 ≤ s.reflectivity_alpha ∧ s.reflectivity_alpha ≤ 1

instance decParamsValid (s : LightForceSimulator) : Decidable (ParamsValid s) := by
  unfold ParamsValid
  infer_instance

/-- The reachable states: the constructor state, and any state obtained from a
reachable state by set_parameters with arbitrary rational arguments. -/
inductive Reachable : LightForceSimulator → Prop
  | base : Reachable init
  | step (s : LightForceSimulator) (p v a : ℚ) (h : Reachable s) :
      Reachable (set_parameters s p v a)

/-- A call of calculate_light_force_thrust as (returned value, state of self
after the call): the method body only reads self, so the state is unchanged. -/
def call_thrust (s : LightForceSimulator) : (ℚ × ℚ × ℚ) × LightForceSimulator :=
  (calculate_light_force_thrust s, s)

/-- A call of calculate_relativistic_mass_density as (returned value, state of
self after the call): the method body only reads self. -/
def call_density (s : LightForceSimulator) : ℚ × LightForceSimulator :=
  (calculate_relativistic_mass_density s, s)

/- ------------------------------------------------------------------ -/
/- Helper lemmas -/
/- ------------------------------------------------------------------ -/

lemma C_pos : (0 : ℚ) < C := by norm_num [C]

lemma RHO_ATM_pos : (0 : ℚ) < RHO_ATM := by norm_num [RHO_ATM]

lemma RHO_ATM_ne : (RHO_ATM : ℚ) ≠ 0 := ne_of_gt RHO_ATM_pos

lemma qpow_beta (x : ℚ) : qpow x BETA = x ^ 2 := by
  unfold qpow BETA
  rw [show ((2 : ℚ)).num = 2 from rfl, zpow_two, pow_two]

lemma frb_eq (s : LightForceSimulator) :
    (calculate_light_force_thrust s).2.1 =
      (1 + s.reflectivity_alpha) * s.total_intensity_w / C := rfl

lemma rho_component_eq (s : LightForceSimulator) :
    (calculate_light_force_thrust s).2.2 = calculate_relativistic_mass_density s := rfl

lemma guarded_eq (s : LightForceSimulator) :
    guarded_density_quot s = calculate_relativistic_mass_density s / RHO_ATM := by
  unfold guarded_density_quot
  rw [if_neg RHO_ATM_ne]

lemma thrust_eq_closed (s : LightForceSimulator) :
    (calculate_light_force_thrust s).1 =
      (1 + s.reflectivity_alpha) * s.total_intensity_w ^ 3 /
        (C * (s.container_volume_m3 * C ^ 2 * RHO_ATM) ^ 2) := by
  have hC : (C : ℚ) ≠ 0 := ne_of_gt C_pos
  simp only [calculate_light_force_thrust, guarded_eq,
    calculate_relativistic_mass_density, qpow_beta, K_ENV]
  field_simp
  ring

lemma volume_pos_of_valid {s : LightForceSimulator} (h : ParamsValid s) :
    0 < s.container_volume_m3 := lt_of_lt_of_le (by norm_num) h.2.1

lemma denom_pos_of_valid {s : LightForceSimulator} (h : ParamsValid s) :
    0 < s.container_volume_m3 * C ^ 2 :=
  mul_pos (volume_pos_of_valid h) (pow_pos C_pos 2)

lemma thrust_denom_pos_of_valid {s : LightForceSimulator} (h : ParamsValid s) :
    0 < C * (s.container_volume_m3 * C ^ 2 * RHO_ATM) ^ 2 :=
  mul_pos C_pos (pow_pos (mul_pos (denom_pos_of_valid h) RHO_ATM_pos) 2)

/- ------------------------------------------------------------------ -/
/- Claim theorems -/
/- ------------------------------------------------------------------ -/

/-- C1: for every stored parameter state satisfying the clamp invariant,
calculate_light_force_thrust returns the 3-tuple (thrust, forceRadBase,
rho_rel) with forceRadBase = (1 + a) * P / C, rho_rel = P / (V * C^2),
thrust = forceRadBase * K_ENV * (rho_rel / RHO_ATM) ^ BETA, and all three
components non-negative. -/
theorem c1_thrust_components (s : LightForceSimulator) (h : ParamsValid s) :
    (calculate_light_force_thrust s).2.1 =
      (1 + s.reflectivity_alpha) * s.total_intensity_w / C ∧
    (calculate_light_force_thrust s).2.2 =
      s.total_intensity_w / (s.container_volume_m3 * C ^ 2) ∧
    (calculate_light_force_thrust s).1 =
      (calculate_light_force_thrust s).2.1 * K_ENV *
        qpow ((calculate_light_force_thrust s).2.2 / RHO_ATM) BETA ∧
    0 ≤ (calculate_light_force_thrust s).1 ∧
    0 ≤ (calculate_light_force_thrust s).2.1 ∧
    0 ≤ (calculate_light_force_thrust s).2.2 := by
  obtain ⟨hP, hV, ha0, ha1⟩ := h
  have h1a : (0 : ℚ) ≤ 1 + s.reflectivity_alpha := by linarith
  refine ⟨rfl, rfl, ?_, ?_, ?_, ?_⟩
  · have hbody : (calculate_light_force_thrust s).1 =
        ((1 + s.reflectivity_alpha) * s.total_intensity_w / C) *
          (K_ENV * qpow (guarded_density_quot s) BETA) := rfl
    rw [hbody, frb_eq, rho_component_eq, guarded_eq]
    ring
  · rw [thrust_eq_closed]
    exact div_nonneg (mul_nonneg h1a (pow_nonneg hP 3))
      (thrust_denom_pos_of_valid ⟨hP, hV, ha0, ha1⟩).le
  · rw [frb_eq]
    exact div_nonneg (mul_nonneg h1a hP) C_pos.le
  · rw [rho_component_eq]
    exact div_nonneg hP (denom_pos_of_valid ⟨hP, hV, ha0, ha1⟩).le

/-- C1 witness: the theorem applied to the default state. -/
theorem c1_witness :
    ParamsValid init ∧
    ((calculate_light_force_thrust init).2.1 =
        (1 + init.reflectivity_alpha) * init.total_intensity_w / C ∧
      (calculate_light_force_thrust init).2.2 =
        init.total_intensity_w / (init.container_volume_m3 * C ^ 2) ∧
      (calculate_light_force_thrust init).1 =
        (calculate_light_force_thrust init).2.1 * K_ENV *
          qpow ((calculate_light_force_thrust init).2.2 / RHO_ATM) BETA ∧
      0 ≤ (calculate_light_force_thrust init).1 ∧
      0 ≤ (calculate_light_force_thrust init).2.1 ∧
      0 ≤ (calculate_light_force_thrust init).2.2) :=
  ⟨by norm_num [ParamsValid, init],
    c1_thrust_components init (by norm_num [ParamsValid, init])⟩

/-- C2: set_parameters stores exactly the clamped values max(0, power),
max(0.1, volume), min(1, max(0, reflectivity)) for arbitrary inputs, replacing
all three fields together and never rejecting an input. -/
theorem c2_set_parameters_clamps (s : LightForceSimulator) (p v a : ℚ) :
    set_parameters s p v a = ⟨max 0 p, max 0.1 v, min 1 (max 0 a)⟩ := rfl

/-- C3: for stored states satisfying the clamp invariant,
calculate_relativistic_mass_density equals power / (volume * C^2), the divisor
is non-zero, the result is non-negative, and the result is monotonically
increasing in the power (volume fixed) and monotonically decreasing in the
volume (power fixed). -/
theorem c3_density_spec (s t : LightForceSimulator)
    (hs : ParamsValid s) (ht : ParamsValid t) :
    calculate_relativistic_mass_density s =
      s.total_intensity_w / (s.container_volume_m3 * C ^ 2) ∧
    s.container_volume_m3 * C ^ 2 ≠ 0 ∧
    0 ≤ calculate_relativistic_mass_density s ∧
    (s.container_volume_m3 = t.container_volume_m3 →
      s.total_intensity_w ≤ t.total_intensity_w →
      calculate_relativistic_mass_density s ≤ calculate_relativistic_mass_density t) ∧
    (s.total_intensity_w = t.total_intensity_w →
      s.container_volume_m3 ≤ t.container_volume_m3 →
      calculate_relativistic_mass_density t ≤ calculate_relativistic_mass_density s) := by
  have hDs := denom_pos_of_valid hs
  have hDt := denom_pos_of_valid ht
  refine ⟨rfl, ne_of_gt hDs, div_nonneg hs.1 hDs.le, ?_, ?_⟩
  · intro hv hp
    unfold calculate_relativistic_mass_density
    rw [hv]
    exact (div_le_div_iff_of_pos_right hDt).2 hp
  · intro hp hv
    unfold calculate_relativistic_mass_density
    rw [← hp]
    exact div_le_div_of_nonneg_left hs.1 hDs
      (mul_le_mul_of_nonneg_right hv (pow_pos C_pos 2).le)

/-- C3 witness: the theorem applied to the default state (for both states). -/
theorem c3_witness :
    ParamsValid init ∧
    (calculate_relativistic_mass_density init =
        init.total_intensity_w / (init.container_volume_m3 * C ^ 2) ∧
      init.container_volume_m3 * C ^ 2 ≠ 0 ∧
      0 ≤ calculate_relativistic_mass_density init ∧
      (init.container_volume_m3 = init.container_volume_m3 →
        init.total_intensity_w ≤ init.total_intensity_w →
        calculate_relativistic_mass_density init ≤
          calculate_relativistic_mass_density init) ∧
      (init.total_intensity_w = init.total_intensity_w →
        init.container_volume_m3 ≤ init.container_volume_m3 →
        calculate_relativistic_mass_density init ≤
          calculate_relativistic_mass_density init)) :=
  ⟨by norm_num [ParamsValid, init],
    c3_density_spec init init (by norm_num [ParamsValid, init])
      (by norm_num [ParamsValid, init])⟩

/-- C4: every reachable state (the constructor defaults, or the result of any
sequence of set_parameters calls with arbitrary rational arguments) satisfies
the clamp invariant power >= 0, volume >= 0.1, 0 <= reflectivity <= 1, the
defaults are (50000, 10, 0.95), and the constants keep their startup values
under every operation. -/
theorem c4_reachable_invariant (s : LightForceSimulator) (h : Reachable s) :
    init = ⟨50000, 10, 0.95⟩ ∧ ParamsValid s ∧
    C = 299792458 ∧ RHO_ATM = 1.225 ∧ K_ENV = 1 ∧ BETA = 2 ∧ A_EFF = 1 := by
  refine ⟨rfl, ?_, rfl, rfl, rfl, rfl, rfl⟩
  induction h with
  | base => exact ⟨by norm_num [init], by norm_num [init], by norm_num [init],
      by norm_num [init]⟩
  | step s p v a h ih =>
      exact ⟨le_max_left 0 p, le_max_left (0.1 : ℚ) v,
        le_min (by norm_num) (le_max_left 0 a), min_le_left 1 (max 0 a)⟩

/-- C4 witness: the theorem applied to the constructor state. -/
theorem c4_witness :
    Reachable init ∧
    (init = ⟨50000, 10, 0.95⟩ ∧ ParamsValid init ∧
      C = 299792458 ∧ RHO_ATM = 1.225 ∧ K_ENV = 1 ∧ BETA = 2 ∧ A_EFF = 1) :=
  ⟨Reachable.base, c4_reachable_invariant init Reachable.base⟩

/-- C5: the guard in calculate_light_force_thrust is dead: RHO_ATM is non-zero,
so the density ratio always takes the rho_rel / RHO_ATM branch, and the thrust
is computed from that ratio for every state; the function is total. -/
theorem c5_guard_dead_branch :
    RHO_ATM ≠ 0 ∧
    (∀ s : LightForceSimulator,
      guarded_density_quot s = calculate_relativistic_mass_density s / RHO_ATM) ∧
    (∀ s : LightForceSimulator,
      (calculate_light_force_thrust s).1 =
        ((1 + s.reflectivity_alpha) * s.total_intensity_w / C) *
          (K_ENV * qpow (calculate_relativistic_mass_density s / RHO_ATM) BETA)) :=
  ⟨RHO_ATM_ne, fun s => guarded_eq s, fun s => by rw [← guarded_eq]; rfl⟩

/-- C6: with volume and reflectivity fixed (clamp invariant holding), strictly
increasing the stored power strictly increases both forceRadBase and thrust. -/
theorem c6_strict_mono_in_power (s t : LightForceSimulator)
    (hs : ParamsValid s) (ht : ParamsValid t)
    (hv : s.container_volume_m3 = t.container_volume_m3)
    (ha : s.reflectivity_alpha = t.reflectivity_alpha)
    (hp : s.total_intensity_w < t.total_intensity_w) :
    (calculate_light_force_thrust s).2.1 < (calculate_light_force_thrust t).2.1 ∧
    (calculate_light_force_thrust s).1 < (calculate_light_force_thrust t).1 := by
  have h1a : (0 : ℚ) < 1 + s.reflectivity_alpha := by
    have := hs.2.2.1
    linarith
  constructor
  · rw [frb_eq, frb_eq, ← ha]
    exact (div_lt_div_iff_of_pos_right C_pos).2 (mul_lt_mul_of_pos_left hp h1a)
  · rw [thrust_eq_closed, thrust_eq_closed, ← ha, ← hv]
    exact (div_lt_div_iff_of_pos_right (thrust_denom_pos_of_valid hs)).2
      (mul_lt_mul_of_pos_left (pow_lt_pow_left₀ hp hs.1 (by norm_num)) h1a)

/-- C6 witness: the theorem applied to power 1 versus the default power 50000,
with the default volume and reflectivity. -/
theorem c6_witness :
    ParamsValid (set_parameters init 1 10 0.95) ∧ ParamsValid init ∧
    (set_parameters init 1 10 0.95).container_volume_m3 = init.container_volume_m3 ∧
    (set_parameters init 1 10 0.95).reflectivity_alpha = init.reflectivity_alpha ∧
    (set_parameters init 1 10 0.95).total_intensity_w < init.total_intensity_w ∧
    ((calculate_light_force_thrust (set_parameters init 1 10 0.95)).2.1 <
        (calculate_light_force_thrust init).2.1 ∧
      (calculate_light_force_thrust (set_parameters init 1 10 0.95)).1 <
        (calculate_light_force_thrust init).1) :=
  ⟨by norm_num [ParamsValid, set_parameters, init],
    by norm_num [ParamsValid, init],
    by norm_num [set_parameters, init],
    by norm_num [set_parameters, init],
    by norm_num [set_parameters, init],
    c6_strict_mono_in_power (set_parameters init 1 10 0.95) init
      (by norm_num [ParamsValid, set_parameters, init])
      (by norm_num [ParamsValid, init])
      (by norm_num [set_parameters, init])
      (by norm_num [set_parameters, init])
      (by norm_num [set_parameters, init])⟩

/-- C7 counterexample: thrust does not grow quadratically in the power.
Doubling the power from 1 to 2 (volume 1, reflectivity 0) multiplies the
thrust by 8, not by 4, and the thrust at power 1 is non-zero. -/
theorem c7_counterexample :
    (calculate_light_force_thrust (set_parameters init 2 1 0)).1 =
      8 * (calculate_light_force_thrust (set_parameters init 1 1 0)).1 ∧
    (calculate_light_force_thrust (set_parameters init 2 1 0)).1 ≠
      4 * (calculate_light_force_thrust (set_parameters init 1 1 0)).1 ∧
    (calculate_light_force_thrust (set_parameters init 1 1 0)).1 ≠ 0 := by
  refine ⟨?_, ?_, ?_⟩ <;>
    norm_num [calculate_light_force_thrust, set_parameters, init,
      guarded_density_quot, calculate_relativistic_mass_density, qpow_beta,
      K_ENV, C, RHO_ATM]

/-- C7 amended: with volume and reflectivity held fixed, thrust grows
cubically in the power (thrust = coefficient * power ^ 3, the power of degree
BETA + 1 = 3), and with power (positive) and reflectivity held fixed the
thrust strictly decays as the volume grows. -/
theorem c7_cubic_growth_and_volume_decay (s t : LightForceSimulator)
    (hs : ParamsValid s) (ht : ParamsValid t)
    (hp : s.total_intensity_w = t.total_intensity_w)
    (ha : s.reflectivity_alpha = t.reflectivity_alpha)
    (hP : 0 < s.total_intensity_w)
    (hv : s.container_volume_m3 < t.container_volume_m3) :
    ((calculate_light_force_thrust s).1 =
        (1 + s.reflectivity_alpha) /
            (C * (s.container_volume_m3 * C ^ 2 * RHO_ATM) ^ 2) *
          s.total_intensity_w ^ 3) ∧
    (calculate_light_force_thrust t).1 < (calculate_light_force_thrust s).1 := by
  have h1a : (0 : ℚ) < 1 + s.reflectivity_alpha := by
    have := hs.2.2.1
    linarith
  constructor
  · rw [thrust_eq_closed]
    ring
  · rw [thrust_eq_closed, thrust_eq_closed, ← hp, ← ha]
    refine div_lt_div_of_pos_left (mul_pos h1a (pow_pos hP 3))
      (thrust_denom_pos_of_valid hs) ?_
    refine mul_lt_mul_of_pos_left ?_ C_pos
    refine pow_lt_pow_left₀ ?_ (mul_pos (denom_pos_of_valid hs) RHO_ATM_pos).le
      (by norm_num)
    exact mul_lt_mul_of_pos_right
      (mul_lt_mul_of_pos_right hv (pow_pos C_pos 2)) RHO_ATM_pos

/-- C7 witness: the amended theorem applied to the default state against the
same powers and reflectivity at the larger volume 20. -/
theorem c7_witness :
    ParamsValid init ∧ ParamsValid (set_parameters init 50000 20 0.95) ∧
    init.total_intensity_w = (set_parameters init 50000 20 0.95).total_intensity_w ∧
    init.reflectivity_alpha = (set_parameters init 50000 20 0.95).reflectivity_alpha ∧
    0 < init.total_intensity_w ∧
    init.container_volume_m3 < (set_parameters init 50000 20 0.95).container_volume_m3 ∧
    (((calculate_light_force_thrust init).1 =
        (1 + init.reflectivity_alpha) /
            (C * (init.container_volume_m3 * C ^ 2 * RHO_ATM) ^ 2) *
          init.total_intensity_w ^ 3) ∧
      (calculate_light_force_thrust (set_parameters init 50000 20 0.95)).1 <
        (calculate_light_force_thrust init).1) :=
  ⟨by norm_num [ParamsValid, init],
    by norm_num [ParamsValid, set_parameters, init],
    by norm_num [set_parameters, init],
    by norm_num [set_parameters, init],
    by norm_num [init],
    by norm_num [set_parameters, init],
    c7_cubic_growth_and_volume_decay init (set_parameters init 50000 20 0.95)
      (by norm_num [ParamsValid, init])
      (by norm_num [ParamsValid, set_parameters, init])
      (by norm_num [set_parameters, init])
      (by norm_num [set_parameters, init])
      (by norm_num [init])
      (by norm_num [set_parameters, init])⟩

/-- C8 counterexample: after set_parameters(50000, 0.05, 0.95) the density is
not double the default-state density (it is a hundred times it). -/
theorem c8_counterexample :
    calculate_relativistic_mass_density (set_parameters init 50000 0.05 0.95) ≠
      2 * calculate_relativistic_mass_density init := by
  norm_num [calculate_relativistic_mass_density, set_parameters, init, C]

/-- C8 amended: after set_parameters(50000, 0.05, 0.95) the stored volume is
clamped to 0.1 and the density is one hundred times the default (Scenario A)
density 50000 / (10 * C^2). -/
theorem c8_scenarioE_hundredfold :
    (set_parameters init 50000 0.05 0.95).container_volume_m3 = 0.1 ∧
    calculate_relativistic_mass_density (set_parameters init 50000 0.05 0.95) =
      100 * calculate_relativistic_mass_density init ∧
    calculate_relativistic_mass_density init = 50000 / (10 * C ^ 2) := by
  refine ⟨?_, ?_, ?_⟩ <;>
    norm_num [calculate_relativistic_mass_density, set_parameters, init, C]

/-- C9: both calculator calls leave the state of self unchanged, repeated
calls on the unchanged state return identical results, and the constants are
untouched: the calculators are pure and deterministic. -/
theorem c9_calculators_pure (s : LightForceSimulator) :
    (call_thrust s).2 = s ∧ (call_density s).2 = s ∧
    (call_thrust ((call_thrust s).2)).1 = (call_thrust s).1 ∧
    (call_density ((call_density s).2)).1 = (call_density s).1 ∧
    C = 299792458 ∧ RHO_ATM = 1.225 ∧ K_ENV = 1 ∧ BETA = 2 ∧ A_EFF = 1 :=
  ⟨rfl, rfl, rfl, rfl, rfl, rfl, rfl, rfl, rfl⟩

/-- C10: with positive power and the volume fixed (clamp invariant holding),
strictly increasing the stored reflectivity strictly increases both
forceRadBase and thrust. -/
theorem c10_strict_mono_in_reflectivity (s t : LightForceSimulator)
    (hs : ParamsValid s) (ht : ParamsValid t)
    (hp : s.total_intensity_w = t.total_intensity_w)
    (hP : 0 < s.total_intensity_w)
    (hv : s.container_volume_m3 = t.container_volume_m3)
    (ha : s.reflectivity_alpha < t.reflectivity_alpha) :
    (calculate_light_force_thrust s).2.1 < (calculate_light_force_thrust t).2.1 ∧
    (calculate_light_force_thrust s).1 < (calculate_light_force_thrust t).1 := by
  have h1a : 1 + s.reflectivity_alpha < 1 + t.reflectivity_alpha := by linarith
  constructor
  · rw [frb_eq, frb_eq, ← hp]
    exact (div_lt_div_iff_of_pos_right C_pos).2 (mul_lt_mul_of_pos_right h1a hP)
  · rw [thrust_eq_closed, thrust_eq_closed, ← hp, ← hv]
    exact (div_lt_div_iff_of_pos_right (thrust_denom_pos_of_valid hs)).2
      (mul_lt_mul_of_pos_right h1a (pow_pos hP 3))

/-- C10 witness: the theorem applied to the default reflectivity 0.95 versus
reflectivity 1, with the default power and volume. -/
theorem c10_witness :
    ParamsValid init ∧ ParamsValid (set_parameters init 50000 10 1) ∧
    init.total_intensity_w = (set_parameters init 50000 10 1).total_intensity_w ∧
    0 < init.total_intensity_w ∧
    init.container_volume_m3 = (set_parameters init 50000 10 1).container_volume_m3 ∧
    init.reflectivity_alpha < (set_parameters init 50000 10 1).reflectivity_alpha ∧
    ((calculate_light_force_thrust init).2.1 <
        (calculate_light_force_thrust (set_parameters init 50000 10 1)).2.1 ∧
      (calculate_light_force_thrust init).1 <
        (calculate_light_force_thrust (set_parameters init 50000 10 1)).1) :=
  ⟨by norm_num [ParamsValid, init],
    by norm_num [ParamsValid, set_parameters, init],
    by norm_num [set_parameters, init],
    by norm_num [init],
    by norm_num [set_parameters, init],
    by norm_num [set_parameters, init],
    c10_strict_mono_in_reflectivity init (set_parameters init 50000 10 1)
      (by norm_num [ParamsValid, init])
      (by norm_num [ParamsValid, set_parameters, init])
      (by norm_num [set_parameters, init])
      (by norm_num [init])
      (by norm_num [set_parameters, init])
      (by norm_num [set_parameters, init])⟩

end LightForce
